import Mathlib

/-!
Shallow embedding of the liveness-detection core of the identitybanc
repository: the blink and head-turn polling detectors, the three redundant
rolling liveness-state variants found in the source (client/src/lib/
face-detection.ts and the two unnamed re-implementations), the camera
resource handling and the verification orchestrator step sequence.

Numbers are modelled as rationals.  The landmark geometry (euclidean
distances / Math.hypot, which introduce square roots) is treated as the
extractor boundary: each processed frame supplies the already-measured
eye-aspect-ratio and pose quantities, exactly the terms in which the
detection logic branches.  Wall-clock timestamps attached to returned
records are omitted; everything the detection logic reads or writes is
modelled.
-/

/-- Face angle record returned with each liveness report
(pitch, roll, yaw). -/
structure FaceAngle where
  pitch : ℚ
  roll : ℚ
  yaw : ℚ
deriving DecidableEq, Repr

/-- The LivenessData record returned by every detectLiveness variant
(timestamp field omitted: it is wall clock, never branched on). -/
structure LivenessData where
  blinkDetected : Bool
  headMovement : Bool
  facePresent : Bool
  faceAngle : FaceAngle
  eyeAspectRatio : ℚ
deriving DecidableEq, Repr

/-- The default response: all flags false, zero angles and zero EAR.
Mirrors getDefaultLivenessData / the inline default objects. -/
def defaultLivenessData : LivenessData :=
  { blinkDetected := false
    headMovement := false
    facePresent := false
    faceAngle := ⟨0, 0, 0⟩
    eyeAspectRatio := 0 }

/-- One entry of a head-position history: a yaw/pitch pair. -/
structure HeadPos where
  yaw : ℚ
  pitch : ℚ
deriving DecidableEq, Repr

/-- Bounded push: models arr.push(a) followed by
if (arr.length > cap) arr.shift() — append, then drop the oldest entry
when the capacity is exceeded. -/
def shiftPush (cap : ℕ) (l : List α) (a : α) : List α :=
  let grown := l ++ [a]
  if cap < grown.length then grown.tail else grown

/-- Last element of a list with a default, mirroring
arr[arr.length - 1] reads guarded by a length check. -/
def lastD : List α → α → α
  | [], d => d
  | [a], _ => a
  | _ :: b :: rest, d => lastD (b :: rest) d

/-- Truncation toward zero on rationals, as JavaScript division underlying
the % operator truncates. -/
def qTrunc (q : ℚ) : ℤ :=
  if q < 0 then ⌈q⌉ else ⌊q⌋

/-- The JavaScript remainder a % b: a - b * trunc(a / b). -/
def jsRem (a b : ℚ) : ℚ :=
  a - b * qTrunc (a / b)

namespace WB

/-! Embedding of waitForBlink (the blink-detection module imported by the
orchestrator as @/lib/blink-detection): an edge-triggered blink counter
polled against a sequence of per-poll detection results. -/

/-- One poll observation of the blink loop: the averaged eye aspect ratio
when a face with landmarks was detected, or none when detection returned
nothing for this poll. -/
def Obs := Option ℚ

/-- Blink loop state: blinks counted so far and whether the previous
processed frame's EAR was below the closed-eye threshold. Mirrors the
local variables blinks and lastClosed of waitForBlink. -/
structure BlinkState where
  blinks : ℕ
  lastClosed : Bool
deriving DecidableEq, Repr

/-- One iteration of the body of the waitForBlink polling loop: when a face
is detected and its EAR is below 0.22, the blink count increments only if
the previous processed frame was not already below threshold; an
above-threshold frame clears lastClosed; a no-detection poll changes
nothing. -/
def blinkStep (st : BlinkState) (o : Obs) : BlinkState :=
  match o with
  | none => st
  | some ear =>
    if ear < 22/100 then
      if st.lastClosed then st else { blinks := st.blinks + 1, lastClosed := true }
    else
      { st with lastClosed := false }

/-- Blink count after folding a list of poll observations from the initial
loop state (blinks = 0, lastClosed = false). -/
def blinksAfter (obss : List Obs) : ℕ :=
  (obss.foldl blinkStep ⟨0, false⟩).blinks

/-- The waitForBlink while loop: it runs until the poll list (the timeout
window) is exhausted or the requested blink count is reached, and yields
the final blink count. -/
def waitForBlinkGo (blinkCount : ℕ) : List Obs → BlinkState → ℕ
  | [], st => st.blinks
  | o :: rest, st =>
    if blinkCount ≤ st.blinks then st.blinks
    else waitForBlinkGo blinkCount rest (blinkStep st o)

/-- waitForBlink: true when at least blinkCount blinks were counted before
the poll window closed. -/
def waitForBlink (obss : List Obs) (blinkCount : ℕ) : Bool :=
  if blinkCount ≤ waitForBlinkGo blinkCount obss ⟨0, false⟩ then true else false

end WB

namespace HT

/-! Embedding of waitForHeadTurn (client/src/lib/head-turn-detection.ts):
per poll it derives a horizontal nose offset from the jaw midline and
latches a left flag when the offset drops below -10 and a right flag when
it exceeds 10; the step succeeds once both flags are set. -/

/-- One detected face for the head-turn loop: the x coordinates of nose
point 3 and of the two outer jaw points 0 and 16. -/
structure HeadObs where
  nose3x : ℚ
  jaw0x : ℚ
  jaw16x : ℚ
deriving DecidableEq, Repr

/-- The offset used by waitForHeadTurn: nose x minus the midpoint of the
outer jaw points. -/
def headOffset (o : HeadObs) : ℚ :=
  o.nose3x - (o.jaw0x + o.jaw16x) / 2

/-- Latched excursion flags of the head-turn loop. -/
structure TurnState where
  left : Bool
  right : Bool
deriving DecidableEq, Repr

/-- One iteration of the waitForHeadTurn loop body: a no-detection poll
changes nothing; otherwise the left flag latches when the offset is below
-10 and the right flag latches when it is above 10. -/
def turnStep (st : TurnState) (o : Option HeadObs) : TurnState :=
  match o with
  | none => st
  | some o =>
    let st1 := if headOffset o < -10 then { st with left := true } else st
    if 10 < headOffset o then { st1 with right := true } else st1

/-- Latched flags after folding a list of poll observations from the
initial state (both flags false). -/
def turnAfter (obss : List (Option HeadObs)) : TurnState :=
  obss.foldl turnStep ⟨false, false⟩

/-- The head-movement result reported after a list of polls: both
excursion flags latched. -/
def turnResult (obss : List (Option HeadObs)) : Bool :=
  (turnAfter obss).left && (turnAfter obss).right

/-- The waitForHeadTurn while loop: it runs until the poll list (the
timeout window) is exhausted or both flags are latched. -/
def waitForHeadTurnGo : List (Option HeadObs) → TurnState → TurnState
  | [], st => st
  | o :: rest, st =>
    if st.left && st.right then st
    else waitForHeadTurnGo rest (turnStep st o)

/-- waitForHeadTurn: true when both a left and a right excursion were
observed before the poll window closed. -/
def waitForHeadTurn (obss : List (Option HeadObs)) : Bool :=
  let st := waitForHeadTurnGo obss ⟨false, false⟩
  st.left && st.right

end HT

namespace P5

/-! Embedding of the face-api.js detectLiveness variant (the unnamed
source file with EYE_AR_THRESHOLD = 0.23, EAR history capped at 10, head
history capped at 30 and blinkDetected = blinkCounter >= 2). -/

/-- Extractor output for one frame with a detected face: the averaged eye
aspect ratio and the pose rotation delivered by the optional head-pose
estimator (all zero when that estimator is unavailable, as the code
defaults them). -/
structure Obs where
  ear : ℚ
  yaw : ℚ
  pitch : ℚ
  roll : ℚ
deriving DecidableEq, Repr

/-- The module-level mutable state of this variant: the EAR history, the
blink counter and the head-position history. -/
structure State where
  eyeAspectRatios : List ℚ
  blinkCounter : ℕ
  headPositions : List HeadPos
deriving DecidableEq, Repr

/-- Initial module state: empty histories and a zero blink counter. -/
def initState : State := ⟨[], 0, []⟩

/-- Closed-eye EAR threshold of this variant. -/
def EYE_AR_THRESHOLD : ℚ := 23/100

/-- Head angle threshold of this variant. -/
def HEAD_ANGLE_THRESHOLD : ℚ := 20

/-- One detectLiveness call of this variant: a frame with no detected face
(or a detection exception) returns the default record and leaves the state
untouched; a face frame appends the EAR (history capped at 10), increments
the blink counter whenever the EAR is below threshold, appends the pose
(history capped at 30), and reports head movement when the first and last
history entries differ by more than the angle threshold in yaw or pitch. -/
def detectLiveness (o : Option Obs) (s : State) : LivenessData × State :=
  match o with
  | none => (defaultLivenessData, s)
  | some o =>
    let ears := shiftPush 10 s.eyeAspectRatios o.ear
    let counter := if o.ear < EYE_AR_THRESHOLD then s.blinkCounter + 1 else s.blinkCounter
    let heads := shiftPush 30 s.headPositions ⟨o.yaw, o.pitch⟩
    let headMovement :=
      if 1 < heads.length then
        let first := heads.headD ⟨0, 0⟩
        let last := lastD heads ⟨0, 0⟩
        if HEAD_ANGLE_THRESHOLD < |last.yaw - first.yaw| ∨
            HEAD_ANGLE_THRESHOLD < |last.pitch - first.pitch| then true else false
      else false
    ({ blinkDetected := if 2 ≤ counter then true else false
       headMovement := headMovement
       facePresent := true
       faceAngle := ⟨o.pitch, o.roll, o.yaw⟩
       eyeAspectRatio := o.ear },
     ⟨ears, counter, heads⟩)

/-- Folding detectLiveness over a sequence of frames, keeping the state. -/
def run (os : List (Option Obs)) (s : State) : State :=
  os.foldl (fun s o => (detectLiveness o s).2) s

/-- resetLivenessDetection of this variant: both histories and the blink
counter return to their initial empty/zero values. -/
def resetLivenessDetection (_s : State) : State :=
  { eyeAspectRatios := [], blinkCounter := 0, headPositions := [] }

end P5

namespace FD

/-! Embedding of client/src/lib/face-detection.ts: the MediaPipe variant
with frame-rate gating, EAR history capped at 5, a rolling-average blink
test and nose-position pose estimation. -/

/-- Extractor output for one frame with a detected face: the averaged eye
aspect ratio and the nose keypoint coordinates (pose is derived from the
nose position and the video dimensions). -/
structure Obs where
  ear : ℚ
  nosex : ℚ
  nosey : ℚ
deriving DecidableEq, Repr

/-- The module-level mutable state of this variant. -/
structure State where
  eyeAspectRatios : List ℚ
  blinkCounter : ℕ
  headPositions : List HeadPos
  lastFrameTime : ℚ
  frameCount : ℕ
deriving DecidableEq, Repr

/-- Initial module state. -/
def initState : State := ⟨[], 0, [], 0, 0⟩

/-- Target frame rate of this variant. -/
def MAX_FRAME_RATE : ℚ := 30

/-- Target inter-frame interval 1000 / MAX_FRAME_RATE milliseconds. -/
def targetFrameTime : ℚ := 1000 / MAX_FRAME_RATE

/-- shouldProcessFrame: a frame is processed only when at least the target
interval elapsed since lastFrameTime; on processing, lastFrameTime is
advanced to now minus the interval remainder. Returns the decision and the
updated state. -/
def shouldProcessFrame (now : ℚ) (s : State) : Bool × State :=
  let t := now - s.lastFrameTime
  if targetFrameTime ≤ t then
    (true, { s with lastFrameTime := now - jsRem t targetFrameTime })
  else
    (false, s)

/-- One detectLiveness call of this variant at wall-clock time now on a
video of dimensions w × h (the video-element validity and model-loading
guards, which return the default record before any state is read, are
assumed satisfied; the unused mouth-width/nose-to-mouth computations have
no effect on state or output and are omitted). A call inside the frame
interval returns the default record untouched; a no-face frame or a
detection exception returns the default record after the frame-gate
update; a face frame appends the EAR (capped at 5), runs the
rolling-average blink test once the history is full, derives pitch/yaw
from the nose position, appends the pose (capped at 30) and reports head
movement when first and last of a more-than-5-entry history differ by more
than 0.2 in yaw or pitch. -/
def detectLiveness (w h now : ℚ) (o : Option Obs) (s : State) : LivenessData × State :=
  let gate := shouldProcessFrame now s
  if gate.1 = false then (defaultLivenessData, gate.2)
  else
    match o with
    | none => (defaultLivenessData, gate.2)
    | some o =>
      let s1 := gate.2
      let ears := shiftPush 5 s1.eyeAspectRatios o.ear
      let counter :=
        if 5 < (s1.eyeAspectRatios ++ [o.ear]).length then
          let avgEAR := ears.sum / (ears.length : ℚ)
          if o.ear < avgEAR * (7/10) then s1.blinkCounter + 1 else s1.blinkCounter
        else s1.blinkCounter
      let pitch := (o.nosey - h / 2) / (h / 2)
      let yaw := (o.nosex - w / 2) / (w / 2)
      let heads := shiftPush 30 s1.headPositions ⟨yaw, pitch⟩
      let headMovement :=
        if 5 < heads.length then
          let first := heads.headD ⟨0, 0⟩
          let last := lastD heads ⟨0, 0⟩
          if 2/10 < |last.yaw - first.yaw| ∨ 2/10 < |last.pitch - first.pitch| then true
          else false
        else false
      ({ blinkDetected := if 0 < counter then true else false
         headMovement := headMovement
         facePresent := true
         faceAngle := ⟨pitch, 0, yaw⟩
         eyeAspectRatio := o.ear },
       ⟨ears, counter, heads, s1.lastFrameTime, s1.frameCount⟩)

/-- Folding detectLiveness over a sequence of (time, frame) inputs. -/
def run (w h : ℚ) (ins : List (ℚ × Option Obs)) (s : State) : State :=
  ins.foldl (fun s p => (detectLiveness w h p.1 p.2 s).2) s

/-- resetLivenessDetection of this variant: histories, blink counter,
lastFrameTime and frameCount all return to their initial values. -/
def resetLivenessDetection (_s : State) : State :=
  { eyeAspectRatios := []
    blinkCounter := 0
    headPositions := []
    lastFrameTime := 0
    frameCount := 0 }

end FD

namespace P6

/-! Embedding of the BlazeFace detectLiveness variant (the unnamed source
file using @tensorflow-models/blazeface): frame-rate gating as in FD, a
blink counter incremented on every below-threshold frame, an EAR history
that is appended to without any eviction, a head history capped at 30
whose entries are always (0, 0), and an early-exit branch once liveness
was established. -/

/-- The module-level mutable state of this variant. -/
structure State where
  eyeAspectRatios : List ℚ
  blinkCounter : ℕ
  headPositions : List HeadPos
  lastFrameTime : ℚ
deriving DecidableEq, Repr

/-- Initial module state. -/
def initState : State := ⟨[], 0, [], 0⟩

/-- Closed-eye EAR threshold of this variant. -/
def EYE_AR_THRESHOLD : ℚ := 23/100

/-- Head angle threshold of this variant. -/
def HEAD_ANGLE_THRESHOLD : ℚ := 20

/-- shouldProcessFrame of this variant, identical in shape to FD. -/
def shouldProcessFrame (now : ℚ) (s : State) : Bool × State :=
  let t := now - s.lastFrameTime
  if 1000 / 30 ≤ t then
    (true, { s with lastFrameTime := now - jsRem t (1000 / 30) })
  else
    (false, s)

/-- One detectLiveness call of this variant at time now; the frame
observation is the averaged EAR of a detected face, or none. The early
exit fires when the blink counter already reached 2 and the head history
certifies movement. Otherwise, after the frame gate, a face frame appends
the EAR to an unbounded history, increments the blink counter whenever the
EAR is below threshold, and appends the hard-coded pose (0, 0) to the head
history (capped at 30); head movement is reported false on this path. -/
def detectLiveness (now : ℚ) (o : Option ℚ) (s : State) : LivenessData × State :=
  let earlyMovement :=
    if 1 < s.headPositions.length then
      let first := s.headPositions.headD ⟨0, 0⟩
      let last := lastD s.headPositions ⟨0, 0⟩
      if HEAD_ANGLE_THRESHOLD < |last.yaw - first.yaw| ∨
          HEAD_ANGLE_THRESHOLD < |last.pitch - first.pitch| then true else false
    else false
  if 2 ≤ s.blinkCounter ∧ earlyMovement = true then
    ({ blinkDetected := true
       headMovement := true
       facePresent := true
       faceAngle := ⟨(lastD s.headPositions ⟨0, 0⟩).pitch, 0, (lastD s.headPositions ⟨0, 0⟩).yaw⟩
       eyeAspectRatio := lastD s.eyeAspectRatios 0 },
     s)
  else
    let gate := shouldProcessFrame now s
    if gate.1 = false then (defaultLivenessData, gate.2)
    else
      match o with
      | none => (defaultLivenessData, gate.2)
      | some ear =>
        let s1 := gate.2
        let ears := s1.eyeAspectRatios ++ [ear]
        let counter := if ear < EYE_AR_THRESHOLD then s1.blinkCounter + 1 else s1.blinkCounter
        let heads := shiftPush 30 s1.headPositions ⟨0, 0⟩
        ({ blinkDetected := if 2 ≤ counter then true else false
           headMovement := false
           facePresent := true
           faceAngle := ⟨0, 0, 0⟩
           eyeAspectRatio := ear },
         ⟨ears, counter, heads, s1.lastFrameTime⟩)

/-- Folding detectLiveness over a sequence of (time, frame) inputs. -/
def run (ins : List (ℚ × Option ℚ)) (s : State) : State :=
  ins.foldl (fun s p => (detectLiveness p.1 p.2 s).2) s

/-- A test input stream: n face frames with EAR 1/2 at times spaced 100 ms
apart starting 100 ms after t. -/
def framesFrom : ℚ → ℕ → List (ℚ × Option ℚ)
  | _, 0 => []
  | t, n + 1 => (t + 100, some (1/2)) :: framesFrom (t + 100) n

end P6

namespace CAM

/-! Embedding of the camera module (client/src/lib/camera.ts): a single
module-level currentStream handle, released by stopCamera, which stops
every track of the active stream and clears the handle, and does nothing
when no stream is held. -/

/-- Camera module state: the track ids of the active stream (none when no
stream is held) and the log of track.stop() calls issued to the underlying
capture, newest appended last. -/
structure Camera where
  currentStream : Option (List ℕ)
  stops : List ℕ
deriving DecidableEq, Repr

/-- stopCamera: when a stream is held, stop each of its tracks and clear
the handle; otherwise do nothing. -/
def stopCamera (c : Camera) : Camera :=
  match c.currentStream with
  | some tracks => { currentStream := none, stops := c.stops ++ tracks }
  | none => c

end CAM

namespace BV

/-! Embedding of the orchestration in performLivenessCheck
(client/src/components/biometric-verification.tsx): after the presence
step's settle delay and frame capture, the blink step runs waitForBlink
and throws on false, then the head-turn step runs waitForHeadTurn and
throws on false; only when all three steps passed is the verification
outcome submitted. Any throw is caught: the run ends failed and nothing is
submitted. -/

/-- The distinguishable failure reasons thrown inside performLivenessCheck
(the Error messages Failed to capture frame from camera, Blink not
detected, and Head turn not detected). -/
inductive FailureReason where
  | captureFailed
  | blinkNotDetected
  | headTurnNotDetected
deriving DecidableEq, Repr

/-- Terminal result of one orchestration run: captured (outcome submitted)
or failed with a reason (caught throw, nothing submitted). -/
inductive RunResult where
  | captured
  | failed (reason : FailureReason)
deriving DecidableEq, Repr

/-- One performLivenessCheck run, driven by whether the initial frame
capture succeeded and by the poll traces seen by the blink and head-turn
steps within their timeout windows. -/
def performLivenessCheck (captureOk : Bool) (blinkTrace : List WB.Obs)
    (turnTrace : List (Option HT.HeadObs)) : RunResult :=
  if captureOk = false then .failed .captureFailed
  else if WB.waitForBlink blinkTrace 2 = false then .failed .blinkNotDetected
  else if HT.waitForHeadTurn turnTrace = false then .failed .headTurnNotDetected
  else .captured

end BV

/-- Sanity check: the blink fold evaluates on a concrete trace. -/
example : WB.blinksAfter [some (3/10), some (18/100), some (3/10), some (18/100)] = 2 := by
  norm_num [WB.blinksAfter, WB.blinkStep, List.foldl]

example : WB.waitForBlink [] 2 = false := rfl

example : HT.turnResult [some ⟨-25, -50, 50⟩, some ⟨25, -50, 50⟩] = true := by
  norm_num [HT.turnResult, HT.turnAfter, HT.turnStep, HT.headOffset, List.foldl]

example :
    ((P5.detectLiveness (some ⟨1/10, 0, 0, 0⟩) P5.initState).2).blinkCounter = 1 := by
  norm_num [P5.detectLiveness, P5.initState, P5.EYE_AR_THRESHOLD, shiftPush]

example :
    (P6.run (P6.framesFrom 0 3) P6.initState).eyeAspectRatios.length = 3 := by
  norm_num [P6.run, P6.framesFrom, P6.detectLiveness, P6.shouldProcessFrame, P6.initState,
    P6.EYE_AR_THRESHOLD, jsRem, qTrunc, shiftPush, lastD, List.foldl]

example :
    (FD.detectLiveness 640 480 10 (some ⟨1/10, 320, 240⟩) FD.initState) =
      (defaultLivenessData, FD.initState) := by
  norm_num [FD.detectLiveness, FD.shouldProcessFrame, FD.targetFrameTime, FD.MAX_FRAME_RATE,
    FD.initState]

/-! General lemmas about the bounded-push pattern and the run folds. -/

theorem shiftPush_length_le (cap : ℕ) (l : List α) (a : α) (h : l.length ≤ cap) :
    (shiftPush cap l a).length ≤ cap := by
  by_cases hc : cap < l.length + 1 <;>
    simp [shiftPush, hc] <;> omega

theorem shiftPush_full (cap : ℕ) (l : List α) (a : α) (h : l.length = cap) (hc : 0 < cap) :
    shiftPush cap l a = l.tail ++ [a] := by
  cases l with
  | nil => simp at h; omega
  | cons b t =>
    simp at h
    have hlt : cap < t.length + 1 + 1 := by omega
    simp [shiftPush, hlt]

theorem P5.run_nil (s : P5.State) : P5.run [] s = s := rfl

theorem P5.run_cons (o : Option P5.Obs) (os : List (Option P5.Obs)) (s : P5.State) :
    P5.run (o :: os) s = P5.run os ((P5.detectLiveness o s).2) := rfl

theorem P5.detectLiveness_none (s : P5.State) :
    P5.detectLiveness none s = (defaultLivenessData, s) := rfl

theorem P5.step_bounds (o : Option P5.Obs) (s : P5.State)
    (h1 : s.eyeAspectRatios.length ≤ 10) (h2 : s.headPositions.length ≤ 30) :
    ((P5.detectLiveness o s).2).eyeAspectRatios.length ≤ 10 ∧
      ((P5.detectLiveness o s).2).headPositions.length ≤ 30 := by
  cases o with
  | none => exact ⟨h1, h2⟩
  | some o =>
    constructor
    · simpa [P5.detectLiveness] using shiftPush_length_le 10 s.eyeAspectRatios o.ear h1
    · simpa [P5.detectLiveness] using shiftPush_length_le 30 s.headPositions ⟨o.yaw, o.pitch⟩ h2

theorem P5.run_bounds (os : List (Option P5.Obs)) (s : P5.State)
    (h1 : s.eyeAspectRatios.length ≤ 10) (h2 : s.headPositions.length ≤ 30) :
    (P5.run os s).eyeAspectRatios.length ≤ 10 ∧
      (P5.run os s).headPositions.length ≤ 30 := by
  induction os generalizing s with
  | nil => exact ⟨h1, h2⟩
  | cons o os ih =>
    rw [P5.run_cons]
    exact ih _ (P5.step_bounds o s h1 h2).1 (P5.step_bounds o s h1 h2).2

theorem P5.run_none (os : List (Option P5.Obs)) (hos : ∀ o ∈ os, o = none) (s : P5.State) :
    P5.run os s = s := by
  induction os with
  | nil => rfl
  | cons o os ih =>
    have ho : o = none := hos o (List.mem_cons_self o os)
    rw [P5.run_cons, ho, P5.detectLiveness_none]
    exact ih fun o hm => hos o (List.mem_cons_of_mem _ hm)

theorem P5.step_counter_mono (o : Option P5.Obs) (s : P5.State) :
    s.blinkCounter ≤ ((P5.detectLiveness o s).2).blinkCounter := by
  cases o with
  | none => exact le_refl _
  | some o =>
    simp only [P5.detectLiveness]
    split <;> simp

theorem P5.run_counter_mono (os : List (Option P5.Obs)) (s : P5.State) :
    s.blinkCounter ≤ (P5.run os s).blinkCounter := by
  induction os generalizing s with
  | nil => exact le_refl _
  | cons o os ih =>
    rw [P5.run_cons]
    exact le_trans (P5.step_counter_mono o s) (ih _)

theorem FD.fd_run_nil (w h : ℚ) (s : FD.State) : FD.run w h [] s = s := rfl

theorem FD.fd_run_cons (w h : ℚ) (p : ℚ × Option FD.Obs) (ins : List (ℚ × Option FD.Obs))
    (s : FD.State) :
    FD.run w h (p :: ins) s = FD.run w h ins ((FD.detectLiveness w h p.1 p.2 s).2) := rfl

theorem FD.fd_detectLiveness_none (w h now : ℚ) (s : FD.State) :
    (FD.detectLiveness w h now none s).1 = defaultLivenessData ∧
      ((FD.detectLiveness w h now none s).2).eyeAspectRatios = s.eyeAspectRatios ∧
      ((FD.detectLiveness w h now none s).2).blinkCounter = s.blinkCounter ∧
      ((FD.detectLiveness w h now none s).2).headPositions = s.headPositions := by
  by_cases hc : FD.targetFrameTime ≤ now - s.lastFrameTime <;>
    simp [FD.detectLiveness, FD.shouldProcessFrame, hc]

theorem FD.run_none_fields (w h : ℚ) (ins : List (ℚ × Option FD.Obs))
    (hins : ∀ p ∈ ins, p.2 = none) (s : FD.State) :
    (FD.run w h ins s).eyeAspectRatios = s.eyeAspectRatios ∧
      (FD.run w h ins s).blinkCounter = s.blinkCounter ∧
      (FD.run w h ins s).headPositions = s.headPositions := by
  induction ins generalizing s with
  | nil => exact ⟨rfl, rfl, rfl⟩
  | cons p ins ih =>
    have hp : p.2 = none := hins p (List.mem_cons_self p ins)
    rw [FD.fd_run_cons]
    obtain ⟨-, he, hb, hh⟩ := FD.fd_detectLiveness_none w h p.1 s
    rw [hp] at *
    obtain ⟨ihe, ihb, ihh⟩ := ih (fun q hq => hins q (List.mem_cons_of_mem _ hq))
      ((FD.detectLiveness w h p.1 none s).2)
    exact ⟨ihe.trans he, ihb.trans hb, ihh.trans hh⟩

theorem FD.fd_step_bounds (w h now : ℚ) (o : Option FD.Obs) (s : FD.State)
    (h1 : s.eyeAspectRatios.length ≤ 5) (h2 : s.headPositions.length ≤ 30) :
    ((FD.detectLiveness w h now o s).2).eyeAspectRatios.length ≤ 5 ∧
      ((FD.detectLiveness w h now o s).2).headPositions.length ≤ 30 := by
  by_cases hc : FD.targetFrameTime ≤ now - s.lastFrameTime
  · cases o with
    | none => simpa [FD.detectLiveness, FD.shouldProcessFrame, hc] using ⟨h1, h2⟩
    | some o =>
      constructor
      · simpa [FD.detectLiveness, FD.shouldProcessFrame, hc] using
          shiftPush_length_le 5 s.eyeAspectRatios o.ear h1
      · simpa [FD.detectLiveness, FD.shouldProcessFrame, hc] using
          shiftPush_length_le 30 s.headPositions
            ⟨(o.nosex - w / 2) / (w / 2), (o.nosey - h / 2) / (h / 2)⟩ h2
  · simpa [FD.detectLiveness, FD.shouldProcessFrame, hc] using ⟨h1, h2⟩

theorem FD.fd_run_bounds (w h : ℚ) (ins : List (ℚ × Option FD.Obs)) (s : FD.State)
    (h1 : s.eyeAspectRatios.length ≤ 5) (h2 : s.headPositions.length ≤ 30) :
    (FD.run w h ins s).eyeAspectRatios.length ≤ 5 ∧
      (FD.run w h ins s).headPositions.length ≤ 30 := by
  induction ins generalizing s with
  | nil => exact ⟨h1, h2⟩
  | cons p ins ih =>
    rw [FD.fd_run_cons]
    exact ih _ (FD.fd_step_bounds w h p.1 p.2 s h1 h2).1 (FD.fd_step_bounds w h p.1 p.2 s h1 h2).2

theorem FD.fd_step_counter_mono (w h now : ℚ) (o : Option FD.Obs) (s : FD.State) :
    s.blinkCounter ≤ ((FD.detectLiveness w h now o s).2).blinkCounter := by
  by_cases hc : FD.targetFrameTime ≤ now - s.lastFrameTime
  · cases o with
    | none => simp [FD.detectLiveness, FD.shouldProcessFrame, hc]
    | some o =>
      simp only [FD.detectLiveness, FD.shouldProcessFrame, hc]
      repeat' split
      all_goals simp
  · simp [FD.detectLiveness, FD.shouldProcessFrame, hc]

theorem FD.fd_run_counter_mono (w h : ℚ) (ins : List (ℚ × Option FD.Obs)) (s : FD.State) :
    s.blinkCounter ≤ (FD.run w h ins s).blinkCounter := by
  induction ins generalizing s with
  | nil => exact le_refl _
  | cons p ins ih =>
    rw [FD.fd_run_cons]
    exact le_trans (FD.fd_step_counter_mono w h p.1 p.2 s) (ih _)

/-! Claim theorems. -/

/-- C10: a detectLiveness call arriving sooner than the target frame
interval (1000/30 ms) after lastFrameTime returns the default LivenessData
(all flags false) and leaves the state, histories included, exactly as it
was — even when the frame carries a visible face. -/
theorem fast_poll_returns_default (w h now : ℚ) (o : Option FD.Obs) (s : FD.State)
    (hlt : now - s.lastFrameTime < FD.targetFrameTime) :
    FD.detectLiveness w h now o s = (defaultLivenessData, s) := by
  have hc : ¬ FD.targetFrameTime ≤ now - s.lastFrameTime := not_le.mpr hlt
  simp [FD.detectLiveness, FD.shouldProcessFrame, hc]

/-- Witness for C10: at 10 ms after the last processed frame (less than
the 1000/30 ms target interval), a frame with a face at EAR 0.3 is
dropped: the default record is returned and the state is untouched. -/
theorem fast_poll_returns_default_witness :
    FD.detectLiveness 640 480 10 (some ⟨3/10, 320, 240⟩) FD.initState =
      (defaultLivenessData, FD.initState) :=
  fast_poll_returns_default 640 480 10 (some ⟨3/10, 320, 240⟩) FD.initState
    (by norm_num [FD.initState, FD.targetFrameTime, FD.MAX_FRAME_RATE])

/-- C8: stopCamera is idempotent — one call releases the stream (the
handle becomes none), a repeat call is the identity, any number of
repeated calls equals one call, and when a stream was active its tracks
are stopped exactly once (the stop log grows by exactly that stream's
tracks). -/
theorem stopCamera_idempotent (c : CAM.Camera) :
    CAM.stopCamera (CAM.stopCamera c) = CAM.stopCamera c ∧
      (CAM.stopCamera c).currentStream = none ∧
      (∀ n : ℕ, CAM.stopCamera^[n + 1] c = CAM.stopCamera c) ∧
      ∀ ts : List ℕ, c.currentStream = some ts →
        (CAM.stopCamera c).stops = c.stops ++ ts := by
  have hidem : CAM.stopCamera (CAM.stopCamera c) = CAM.stopCamera c := by
    cases hc : c.currentStream <;> simp [CAM.stopCamera, hc]
  refine ⟨hidem, ?_, ?_, ?_⟩
  · cases hc : c.currentStream <;> simp [CAM.stopCamera, hc]
  · intro n
    rw [Function.iterate_succ_apply]
    exact Function.iterate_fixed hidem n
  · intro ts hts
    simp [CAM.stopCamera, hts]

/-- Witness for C8: a camera holding a two-track stream, stopped three
times, equals the once-stopped camera with the handle cleared and both
tracks stopped exactly once. -/
theorem stopCamera_idempotent_witness :
    CAM.stopCamera (CAM.stopCamera ⟨some [1, 2], []⟩) = CAM.stopCamera ⟨some [1, 2], []⟩ ∧
      (CAM.stopCamera ⟨some [1, 2], []⟩).currentStream = none ∧
      CAM.stopCamera^[3] (⟨some [1, 2], []⟩ : CAM.Camera) =
        CAM.stopCamera ⟨some [1, 2], []⟩ ∧
      (CAM.stopCamera ⟨some [1, 2], []⟩).stops = [] ++ [1, 2] :=
  ⟨(stopCamera_idempotent ⟨some [1, 2], []⟩).1,
   (stopCamera_idempotent ⟨some [1, 2], []⟩).2.1,
   (stopCamera_idempotent ⟨some [1, 2], []⟩).2.2.1 2,
   (stopCamera_idempotent ⟨some [1, 2], []⟩).2.2.2 [1, 2] rfl⟩

/-- C7: a run whose blink-step poll window yields too few qualifying blink
frames (waitForBlink false) fails with reason blink-not-detected and never
reaches the captured state, for every head-turn trace. -/
theorem blink_timeout_run_fails (blinkTrace : List WB.Obs)
    (turnTrace : List (Option HT.HeadObs))
    (hb : WB.waitForBlink blinkTrace 2 = false) :
    BV.performLivenessCheck true blinkTrace turnTrace =
        BV.RunResult.failed BV.FailureReason.blinkNotDetected ∧
      BV.performLivenessCheck true blinkTrace turnTrace ≠ BV.RunResult.captured := by
  constructor
  · simp [BV.performLivenessCheck, hb]
  · simp [BV.performLivenessCheck, hb]

/-- Witness for C7: a blink window that saw one blink (EAR dip 0.3 → 0.18
→ 0.3) out of the required two makes the run fail with
blink-not-detected. -/
theorem blink_timeout_run_fails_witness :
    BV.performLivenessCheck true [some (3/10), some (18/100), some (3/10)] [] =
        BV.RunResult.failed BV.FailureReason.blinkNotDetected ∧
      BV.performLivenessCheck true [some (3/10), some (18/100), some (3/10)] [] ≠
        BV.RunResult.captured :=
  blink_timeout_run_fails [some (3/10), some (18/100), some (3/10)] []
    (by norm_num [WB.waitForBlink, WB.waitForBlinkGo, WB.blinkStep])

/-- C9: resetLivenessDetection returns the module state of either variant
to its initial value — histories empty, blink counter zero, frame-gate
fields zero — and a no-face frame sequence evaluated right after a reset
leaves the state initial. -/
theorem reset_restores_initial (sf : FD.State) (s5 : P5.State)
    (os : List (Option P5.Obs)) (hos : ∀ o ∈ os, o = none) :
    FD.resetLivenessDetection sf = FD.initState ∧
      P5.resetLivenessDetection s5 = P5.initState ∧
      P5.run os (P5.resetLivenessDetection s5) = P5.initState := by
  refine ⟨rfl, rfl, ?_⟩
  rw [show P5.resetLivenessDetection s5 = P5.initState from rfl]
  exact P5.run_none os hos P5.initState

/-- Witness for C9: resetting a populated state restores the initial
state, and two subsequent no-face frames leave it initial. -/
theorem reset_restores_initial_witness :
    FD.resetLivenessDetection ⟨[1/2], 3, [⟨1, 1⟩], 99, 7⟩ = FD.initState ∧
      P5.resetLivenessDetection ⟨[1/2], 3, [⟨1, 1⟩]⟩ = P5.initState ∧
      P5.run [none, none] (P5.resetLivenessDetection ⟨[1/2], 3, [⟨1, 1⟩]⟩) = P5.initState :=
  reset_restores_initial ⟨[1/2], 3, [⟨1, 1⟩], 99, 7⟩ ⟨[1/2], 3, [⟨1, 1⟩]⟩ [none, none]
    (by intro o hm; simp at hm; exact hm)

/-- C1 counterexample: in the part_005 detectLiveness variant the blink
counter increments on every below-threshold frame — two consecutive frames
with EAR 0.1 (both below the 0.23 threshold) raise the counter from 0 to 1
and then again from 1 to 2, so the count does increment on the second of
consecutive below-threshold frames, refuting the claim for this variant. -/
theorem blink_count_consecutive_frames_counterexample :
    ((P5.detectLiveness (some ⟨1/10, 0, 0, 0⟩) P5.initState).2).blinkCounter = 1 ∧
      ((P5.detectLiveness (some ⟨1/10, 0, 0, 0⟩)
          ((P5.detectLiveness (some ⟨1/10, 0, 0, 0⟩) P5.initState).2)).2).blinkCounter = 2 := by
  norm_num [P5.detectLiveness, P5.initState, P5.EYE_AR_THRESHOLD, shiftPush, lastD]

/-- C1 (amended): in the waitForBlink detector — the blink counter the
orchestrator actually gates on — counting is edge-triggered: a
below-threshold frame increments the count only when the previous
processed frame was not already below threshold, a second consecutive
below-threshold frame never increments, and an above-threshold frame
clears the closed flag without changing the count. -/
theorem waitForBlink_edge_triggered (st : WB.BlinkState) (e1 e2 : ℚ)
    (h1 : e1 < 22/100) (h2 : e2 < 22/100) :
    (WB.blinkStep st (some e1)).blinks =
        (if st.lastClosed then st.blinks else st.blinks + 1) ∧
      (WB.blinkStep (WB.blinkStep st (some e1)) (some e2)).blinks =
        (WB.blinkStep st (some e1)).blinks ∧
      ∀ e : ℚ, ¬ e < 22/100 →
        WB.blinkStep st (some e) = { st with lastClosed := false } := by
  refine ⟨?_, ?_, ?_⟩
  · by_cases hc : st.lastClosed <;> simp [WB.blinkStep, h1, hc]
  · by_cases hc : st.lastClosed <;> simp [WB.blinkStep, h1, h2, hc]
  · intro e he
    simp [WB.blinkStep, he]

/-- Witness for C1: from the initial loop state, the first EAR-0.1 frame
counts one blink, a second consecutive EAR-0.1 frame leaves the count at
one, and an EAR-0.3 frame only clears the closed flag. -/
theorem waitForBlink_edge_triggered_witness :
    (WB.blinkStep ⟨0, false⟩ (some (1/10))).blinks = 1 ∧
      (WB.blinkStep (WB.blinkStep ⟨0, false⟩ (some (1/10))) (some (1/10))).blinks =
        (WB.blinkStep ⟨0, false⟩ (some (1/10))).blinks ∧
      WB.blinkStep ⟨0, false⟩ (some (3/10)) = ⟨0, false⟩ :=
  ⟨(waitForBlink_edge_triggered ⟨0, false⟩ (1/10) (1/10) (by norm_num) (by norm_num)).1,
   (waitForBlink_edge_triggered ⟨0, false⟩ (1/10) (1/10) (by norm_num) (by norm_num)).2.1,
   (waitForBlink_edge_triggered ⟨0, false⟩ (1/10) (1/10) (by norm_num) (by norm_num)).2.2
     (3/10) (by norm_num)⟩

/-- C3 counterexample: in the part_005 variant the reported head-movement
flag is not monotone — with yaw samples 0, 25, 0 (EAR 0.5, pitch 0) the
second frame reports head movement (first-vs-last yaw delta 25 > 20) and
the third frame reports it false again (delta 0), with no reset in
between. -/
theorem head_movement_flag_reverts_counterexample :
    ((P5.detectLiveness (some ⟨1/2, 25, 0, 0⟩)
        ((P5.detectLiveness (some ⟨1/2, 0, 0, 0⟩) P5.initState).2)).1).headMovement = true ∧
      ((P5.detectLiveness (some ⟨1/2, 0, 0, 0⟩)
          ((P5.detectLiveness (some ⟨1/2, 25, 0, 0⟩)
              ((P5.detectLiveness (some ⟨1/2, 0, 0, 0⟩) P5.initState).2)).2)).1).headMovement =
        false := by
  norm_num [P5.detectLiveness, P5.initState, P5.EYE_AR_THRESHOLD, P5.HEAD_ANGLE_THRESHOLD,
    shiftPush, lastD]

/-- C3 (amended): within one run the blink counter of both rolling-state
variants is monotone non-decreasing over any frame sequence, so the
blink-detected flag reported on face frames latches once the counter
reaches 2; the head-movement flag, recomputed per frame from the
first-vs-last window delta, enjoys no such monotonicity (see the
counterexample). -/
theorem blink_flag_monotone (s : P5.State) (os : List (Option P5.Obs))
    (w h : ℚ) (ins : List (ℚ × Option FD.Obs)) (sf : FD.State) :
    s.blinkCounter ≤ (P5.run os s).blinkCounter ∧
      sf.blinkCounter ≤ (FD.run w h ins sf).blinkCounter ∧
      ∀ o : P5.Obs, 2 ≤ s.blinkCounter →
        ((P5.detectLiveness (some o) s).1).blinkDetected = true := by
  refine ⟨P5.run_counter_mono os s, FD.fd_run_counter_mono w h ins sf, ?_⟩
  intro o hs
  have hcnt : 2 ≤ (if o.ear < P5.EYE_AR_THRESHOLD then s.blinkCounter + 1
      else s.blinkCounter) := by
    split <;> omega
  simp only [P5.detectLiveness, if_pos hcnt]

/-- Witness for C3: from a state with two blinks already counted, one more
below-threshold frame keeps the counter non-decreasing in both variants
and the face-frame report shows blink-detected true. -/
theorem blink_flag_monotone_witness :
    (⟨[], 2, []⟩ : P5.State).blinkCounter ≤
        (P5.run [some ⟨1/10, 0, 0, 0⟩] ⟨[], 2, []⟩).blinkCounter ∧
      FD.initState.blinkCounter ≤
        (FD.run 640 480 [(100, some ⟨1/10, 320, 240⟩)] FD.initState).blinkCounter ∧
      ((P5.detectLiveness (some ⟨1/10, 0, 0, 0⟩) ⟨[], 2, []⟩).1).blinkDetected = true :=
  ⟨(blink_flag_monotone ⟨[], 2, []⟩ [some ⟨1/10, 0, 0, 0⟩] 640 480
      [(100, some ⟨1/10, 320, 240⟩)] FD.initState).1,
   (blink_flag_monotone ⟨[], 2, []⟩ [some ⟨1/10, 0, 0, 0⟩] 640 480
      [(100, some ⟨1/10, 320, 240⟩)] FD.initState).2.1,
   (blink_flag_monotone ⟨[], 2, []⟩ [some ⟨1/10, 0, 0, 0⟩] 640 480
      [(100, some ⟨1/10, 320, 240⟩)] FD.initState).2.2 ⟨1/10, 0, 0, 0⟩ (by norm_num)⟩

/-- The crafted EAR sequence of the blink acceptance test:
0.3, 0.18, 0.3, 0.18, 0.3. -/
def C4ears : List ℚ := [3/10, 18/100, 3/10, 18/100, 3/10]

/-- C4: with required blink count 2 and the EAR sequence 0.3, 0.18, 0.3,
0.18, 0.3, the blink-detected condition (two blinks counted) is false
after each of the first three frames and true from the fourth frame
onward, and waitForBlink over the whole sequence succeeds. -/
theorem blink_detected_after_fourth_frame :
    WB.blinksAfter ((C4ears.take 1).map some) < 2 ∧
      WB.blinksAfter ((C4ears.take 2).map some) < 2 ∧
      WB.blinksAfter ((C4ears.take 3).map some) < 2 ∧
      2 ≤ WB.blinksAfter ((C4ears.take 4).map some) ∧
      2 ≤ WB.blinksAfter (C4ears.map some) ∧
      WB.waitForBlink (C4ears.map some) 2 = true := by
  norm_num [C4ears, WB.blinksAfter, WB.blinkStep, WB.waitForBlink, WB.waitForBlinkGo,
    List.foldl, List.take, List.map]

/-- C6: a no-face frame is a no-op in both rolling-state variants — in
part_005 it returns the default record and the identical state, so any
all-no-face sequence from the initial state stays initial; in
face-detection.ts it returns the default record (all flags false) and
leaves the histories and the blink counter untouched, so any all-no-face
sequence from the initial state keeps the histories empty and the counter
at zero. -/
theorem no_face_frames_noop (os : List (Option P5.Obs)) (hos : ∀ o ∈ os, o = none)
    (w h : ℚ) (ins : List (ℚ × Option FD.Obs)) (hins : ∀ p ∈ ins, p.2 = none) :
    P5.run os P5.initState = P5.initState ∧
      (∀ s : P5.State, P5.detectLiveness none s = (defaultLivenessData, s)) ∧
      (FD.run w h ins FD.initState).eyeAspectRatios = [] ∧
      (FD.run w h ins FD.initState).blinkCounter = 0 ∧
      (FD.run w h ins FD.initState).headPositions = [] ∧
      ∀ (now : ℚ) (s : FD.State), (FD.detectLiveness w h now none s).1 = defaultLivenessData := by
  obtain ⟨he, hb, hh⟩ := FD.run_none_fields w h ins hins FD.initState
  exact ⟨P5.run_none os hos P5.initState, fun s => P5.detectLiveness_none s, he, hb, hh,
    fun now s => (FD.fd_detectLiveness_none w h now s).1⟩

/-- Witness for C6: three no-face frames from the initial state leave the
part_005 state initial, and two no-face input frames leave the
face-detection.ts histories empty and the counter zero; the per-frame
reports are the all-false default. -/
theorem no_face_frames_noop_witness :
    P5.run [none, none, none] P5.initState = P5.initState ∧
      P5.detectLiveness none P5.initState = (defaultLivenessData, P5.initState) ∧
      (FD.run 640 480 [(50, none), (100, none)] FD.initState).eyeAspectRatios = [] ∧
      (FD.run 640 480 [(50, none), (100, none)] FD.initState).blinkCounter = 0 ∧
      (FD.run 640 480 [(50, none), (100, none)] FD.initState).headPositions = [] ∧
      (FD.detectLiveness 640 480 50 none FD.initState).1 = defaultLivenessData := by
  have hthm := no_face_frames_noop [none, none, none]
    (by intro o hm; simp at hm; exact hm) 640 480 [(50, none), (100, none)]
    (by intro p hm; simp at hm; rcases hm with h | h <;> simp [h])
  exact ⟨hthm.1, hthm.2.1 P5.initState, hthm.2.2.1, hthm.2.2.2.1, hthm.2.2.2.2.1,
    hthm.2.2.2.2.2 50 FD.initState⟩

/-- The yaw sample sequence of the head-turn acceptance test:
0, 0, 0, -25, 0, 25, 0. -/
def C5yaws : List ℚ := [0, 0, 0, -25, 0, 25, 0]

/-- A head-turn poll observation whose offset equals the given yaw sample:
the nose sits at x = yaw against a jaw centered at x = 0. -/
def C5obs (y : ℚ) : Option HT.HeadObs := some ⟨y, -50, 50⟩

/-- C5: over the yaw sample sequence 0, 0, 0, -25, 0, 25, 0, the
head-movement result after each prefix is true exactly when the prefix
already contains both a sample below -20 and a sample above +20 — both
first hold from the sixth sample on — and the whole waitForHeadTurn step
succeeds; the check requires a left and a right excursion at different
times. -/
theorem head_turn_both_excursions :
    (∀ k : ℕ,
      (HT.turnResult ((C5yaws.take k).map C5obs) = true ↔ 6 ≤ k) ∧
      ((∃ y ∈ C5yaws.take k, y < -20) ∧ (∃ y ∈ C5yaws.take k, (20:ℚ) < y) ↔ 6 ≤ k)) ∧
    HT.waitForHeadTurn (C5yaws.map C5obs) = true := by
  constructor
  · intro k
    rcases lt_or_le k 7 with hk | hk
    · interval_cases k <;>
        constructor <;>
        norm_num [C5yaws, C5obs, HT.turnResult, HT.turnAfter, HT.turnStep, HT.headOffset,
          List.foldl, List.take]
    · rw [List.take_of_length_le (by simp [C5yaws]; omega)]
      have h6 : 6 ≤ k := by omega
      constructor <;>
        simp only [h6, iff_true] <;>
        norm_num [C5yaws, C5obs, HT.turnResult, HT.turnAfter, HT.turnStep, HT.headOffset,
          List.foldl]
  · norm_num [C5yaws, C5obs, HT.waitForHeadTurn, HT.waitForHeadTurnGo, HT.turnStep,
      HT.headOffset, List.map]

/-- Witness for C5: instantiating at the sixth prefix, the head-movement
result is true there. -/
theorem head_turn_both_excursions_witness :
    HT.turnResult ((C5yaws.take 6).map C5obs) = true :=
  ((head_turn_both_excursions.1 6).1).mpr (by norm_num)

set_option maxRecDepth 4000 in
set_option maxHeartbeats 1000000 in
/-- C2 counterexample: in the part_006 (BlazeFace) detectLiveness variant
the EAR history has no eviction — after 31 processed face frames (EAR 0.5,
100 ms apart) it holds 31 entries, exceeding both the 30-entry head cap
and the claimed 10-entry EAR capacity, so the histories of this variant
are not bounded by any fixed capacity. -/
theorem ear_history_capacity_counterexample :
    (P6.run (P6.framesFrom 0 31) P6.initState).eyeAspectRatios.length = 31 ∧
      30 < (P6.run (P6.framesFrom 0 31) P6.initState).eyeAspectRatios.length ∧
      10 < (P6.run (P6.framesFrom 0 31) P6.initState).eyeAspectRatios.length := by
  have h31 : (P6.run (P6.framesFrom 0 31) P6.initState).eyeAspectRatios.length = 31 := by
    norm_num [P6.run, P6.framesFrom, P6.detectLiveness, P6.shouldProcessFrame, P6.initState,
      P6.EYE_AR_THRESHOLD, P6.HEAD_ANGLE_THRESHOLD, jsRem, qTrunc, shiftPush, lastD,
      List.foldl]
  exact ⟨h31, by omega, by omega⟩

/-- C2 (amended): in the part_005 and face-detection.ts variants both
histories are bounded — the EAR history by 10 resp. 5 entries and the
head-position history by 30 — over every frame sequence, and on overflow
the oldest entry is evicted FIFO: a face frame on a full part_005 history
yields the old history minus its head plus the new sample at the end. -/
theorem histories_bounded_fifo (os : List (Option P5.Obs)) (s5 : P5.State)
    (h1 : s5.eyeAspectRatios.length ≤ 10) (h2 : s5.headPositions.length ≤ 30)
    (w h : ℚ) (ins : List (ℚ × Option FD.Obs)) (sf : FD.State)
    (h3 : sf.eyeAspectRatios.length ≤ 5) (h4 : sf.headPositions.length ≤ 30) :
    (P5.run os s5).eyeAspectRatios.length ≤ 10 ∧
      (P5.run os s5).headPositions.length ≤ 30 ∧
      (FD.run w h ins sf).eyeAspectRatios.length ≤ 5 ∧
      (FD.run w h ins sf).headPositions.length ≤ 30 ∧
      (∀ o : P5.Obs, s5.eyeAspectRatios.length = 10 →
        ((P5.detectLiveness (some o) s5).2).eyeAspectRatios =
          s5.eyeAspectRatios.tail ++ [o.ear]) ∧
      ∀ o : P5.Obs, s5.headPositions.length = 30 →
        ((P5.detectLiveness (some o) s5).2).headPositions =
          s5.headPositions.tail ++ [⟨o.yaw, o.pitch⟩] := by
  refine ⟨(P5.run_bounds os s5 h1 h2).1, (P5.run_bounds os s5 h1 h2).2,
    (FD.fd_run_bounds w h ins sf h3 h4).1, (FD.fd_run_bounds w h ins sf h3 h4).2, ?_, ?_⟩
  · intro o hfull
    simpa [P5.detectLiveness] using
      shiftPush_full 10 s5.eyeAspectRatios o.ear hfull (by norm_num)
  · intro o hfull
    simpa [P5.detectLiveness] using
      shiftPush_full 30 s5.headPositions ⟨o.yaw, o.pitch⟩ hfull (by norm_num)

/-- Witness for C2: from a full 10-entry EAR history and a full 30-entry
head history, one more face frame keeps both lengths at their caps, and
the new histories are the old ones shifted by one with the new sample
appended; the empty face-detection.ts state also stays within caps. -/
theorem histories_bounded_fifo_witness :
    (P5.run [some ⟨1/2, 0, 0, 0⟩]
        ⟨List.replicate 10 (1/2), 0, List.replicate 30 ⟨0, 0⟩⟩).eyeAspectRatios.length ≤ 10 ∧
      (P5.run [some ⟨1/2, 0, 0, 0⟩]
        ⟨List.replicate 10 (1/2), 0, List.replicate 30 ⟨0, 0⟩⟩).headPositions.length ≤ 30 ∧
      (FD.run 640 480 [(100, some ⟨1/2, 320, 240⟩)] FD.initState).eyeAspectRatios.length ≤ 5 ∧
      (FD.run 640 480 [(100, some ⟨1/2, 320, 240⟩)] FD.initState).headPositions.length ≤ 30 ∧
      ((P5.detectLiveness (some ⟨1/2, 0, 0, 0⟩)
          ⟨List.replicate 10 (1/2), 0, List.replicate 30 ⟨0, 0⟩⟩).2).eyeAspectRatios =
        (List.replicate 10 (1/2 : ℚ)).tail ++ [1/2] ∧
      ((P5.detectLiveness (some ⟨1/2, 0, 0, 0⟩)
          ⟨List.replicate 10 (1/2), 0, List.replicate 30 ⟨0, 0⟩⟩).2).headPositions =
        (List.replicate 30 (⟨0, 0⟩ : HeadPos)).tail ++ [⟨0, 0⟩] := by
  have hthm := histories_bounded_fifo [some ⟨1/2, 0, 0, 0⟩]
    ⟨List.replicate 10 (1/2), 0, List.replicate 30 ⟨0, 0⟩⟩ (by simp) (by simp)
    640 480 [(100, some ⟨1/2, 320, 240⟩)] FD.initState (by simp [FD.initState])
    (by simp [FD.initState])
  exact ⟨hthm.1, hthm.2.1, hthm.2.2.1, hthm.2.2.2.1,
    hthm.2.2.2.2.1 ⟨1/2, 0, 0, 0⟩ (by simp),
    hthm.2.2.2.2.2 ⟨1/2, 0, 0, 0⟩ (by simp)⟩
